import Mathlib

/-!
Verification of the image-search core of the search-engine-shopee repository.

The embedding follows src/image-search-engine/app.py (the three search
endpoints), src/image-search-engine/config.py (the Settings record) and
src/image-search-engine/model_repository/fetch_model.py (model preparation).
The feature-extractor, Faiss/Qdrant searcher and schema modules are not part
of the provided sources; where a claim depends on them they are modelled from
the specification, each such definition marked "Modelled from the spec".

Conventions: raw image bytes are a list of naturals, floating-point scores
are rationals, Python exceptions are an explicit error type, and each
endpoint handler returns its outcome together with a trace of the externally
visible steps it performed (file save, extractor call, backend search call
with its top_k argument, result mapping).
-/

namespace ImageSearch

/-- Raw image bytes as handed to the service. -/
abbrev Image := List Nat

/-- An embedding vector; floating-point components are modelled as rationals. -/
abbrev Feature := List ℚ

/-- The configuration record, from src/image-search-engine/config.py
(fields irrelevant to the claims are omitted). -/
structure Settings where
  APP_NAME : String
  IMAGEDIR : String
  DIMENSIONS : Nat
  TOP_K : Int
  QDRANT_COLLECTION : String
deriving DecidableEq

/-- The deployed configuration values, from config.py lines 10-30. -/
def settings : Settings :=
  { APP_NAME := "API Image Search Engine"
  , IMAGEDIR := "assets/uploaded_images/"
  , DIMENSIONS := 1000
  , TOP_K := 3
  , QDRANT_COLLECTION := "image-search-engine" }

/-- The Python exceptions that can cross the handler boundary in app.py:
the extractor's input failure, qdrant's UnexpectedResponse (imported at
app.py line 6), and transport-level failures of a remote call. -/
inductive PyError where
  | inputError : PyError
  | unexpectedResponse (reasonPhrase : String) : PyError
  | connectionError : PyError
  | timeoutError : PyError
deriving DecidableEq

/-- A backend-native scored point as returned by the qdrant client:
identifier, payload metadata and score. -/
structure ScoredPoint where
  id : Nat
  payload : String
  score : ℚ
deriving DecidableEq

/-- The externally visible product record (src/schemas.py shape). -/
structure Product where
  id : Nat
  name : String
  score : ℚ
deriving DecidableEq

/-- Modelled from the spec: Product.from_point (src/schemas.py is absent from
the sources) converts one backend-native result record into a catalog
Product record, keeping its identifier and score. -/
def Product.from_point (p : ScoredPoint) : Product :=
  { id := p.id, name := p.payload, score := p.score }

/-- The qdrant search response wrapper: app.py iterates search_results.result. -/
structure SearchResponse where
  result : List ScoredPoint
deriving DecidableEq

/-- An uploaded file: a name and its byte contents. -/
structure UploadFile where
  filename : String
  contents : Image
deriving DecidableEq

/-- The externally visible steps a handler may perform. The validateTopK
step is never emitted by the handlers in app.py; the constructor exists so
that the specification's claimed validation step is expressible. -/
inductive Step where
  | saveFile (path : String) : Step
  | extractCall : Step
  | searchCall (topK : Int) : Step
  | mapResults : Step
  | validateTopK : Step
deriving DecidableEq

/-- A handler outcome: a successful product list, an HTTPException carrying a
string detail, an HTTPException carrying the raw exception as detail
(app.py line 155), or an uncaught Python exception reaching the caller. -/
inductive Outcome where
  | ok (products : List Product) : Outcome
  | httpError (status : Nat) (detail : String) : Outcome
  | httpErrorExc (status : Nat) (exc : PyError) : Outcome
  | raised (e : PyError) : Outcome
deriving DecidableEq

/-- The top_k arguments of the index-backend invocations recorded in a trace. -/
def searchCalls (steps : List Step) : List Int :=
  steps.filterMap fun st =>
    match st with
    | Step.searchCall tk => some tk
    | _ => none

/-- Model weights: any function from the decoded image and an output
coordinate to a value, so that theorems quantify over all weights. -/
abbrev Weights := Image → Nat → ℚ

/-- Modelled from the spec: image decoding inside the extractor
(src/extractor/feature_extractor.py is absent from the sources). An
unreadable input - here the empty byte string, the spec's scenario - fails. -/
def decode_image (img : Image) : Option Image :=
  if img = [] then none else some img

/-- Modelled from the spec: the model's forward pass, a pure function of
(image, weights), producing the fixed-length output vector of dimension D. -/
def forward (D : Nat) (w : Weights) (img : Image) : Feature :=
  (List.range D).map (w img)

/-- Modelled from the spec: FeatureExtractor.extract_feature - decode the
image and run one forward pass; an unreadable image fails with InputError. -/
def extract_feature (D : Nat) (w : Weights) (img : Image) : Except PyError Feature :=
  match decode_image img with
  | none => Except.error PyError.inputError
  | some d => Except.ok (forward D w d)

/-- Wire encoding of a vector for the remote inference call. -/
def serialize_vector (v : Feature) : List (Int × Nat) :=
  v.map fun q => (q.num, q.den)

/-- Wire decoding of a vector from the remote inference call. -/
def deserialize_vector (l : List (Int × Nat)) : Feature :=
  l.map fun p => (p.1 : ℚ) / (p.2 : ℚ)

/-- Modelled from the spec: FeatureExtractor.triton_extract_feature - the
remote variant serializes the input to the inference server hosting the same
model and deserializes the returned vector. -/
def triton_extract_feature (D : Nat) (w : Weights) (img : Image) : Except PyError Feature :=
  match decode_image img with
  | none => Except.error PyError.inputError
  | some d => Except.ok (deserialize_vector (serialize_vector (forward D w d)))

/-- Squared Euclidean distance between a query vector and an entry vector. -/
def squared_distance (q v : Feature) : ℚ :=
  ((q.zip v).map fun p => (p.1 - p.2) ^ 2).sum

/-- Modelled from the spec: query(index, embedding, top_k) over a catalog of
(identifier, embedding) entries (the Faiss/Qdrant searcher internals are
absent from the sources): score every entry by the fixed distance metric,
order best match first, return up to top_k entries. -/
def query (entries : List (Nat × Feature)) (embedding : Feature) (top_k : Nat) :
    List (Nat × ℚ) :=
  (List.insertionSort (fun a b : Nat × ℚ => a.2 ≤ b.2)
    (entries.map fun e => (e.1, squared_distance embedding e.2))).take top_k

/-- Display metadata held by the catalog metadata store. -/
structure CatalogMeta where
  name : String
deriving DecidableEq, Inhabited

/-- Modelled from the spec: the Result Mapper - a pure function from a
Search Result and a metadata lookup to the ranked Product sequence; an
identifier absent from the lookup is dropped rather than failing. -/
def resultMapper (meta : Nat → Option CatalogMeta) (sr : List (Nat × ℚ)) :
    List Product :=
  sr.filterMap fun p => (meta p.1).map fun m => { id := p.1, name := m.name, score := p.2 }

/-- Modelled from the spec: FaissSearch.search - query the local index with
the extracted feature and map the hits against catalog metadata. -/
def FaissSearch.search (entries : List (Nat × Feature)) (meta : Nat → Option CatalogMeta)
    (query_vector : Feature) (top_k : Nat) : List Product :=
  resultMapper meta (query entries query_vector top_k)

/-- The /search-image endpoint, app.py lines 37-78: save the upload, extract
a feature with the local extractor, search qdrant with top_k = 20, map every
returned point through Product.from_point. The except clause (lines 74-78)
catches only UnexpectedResponse, converting it to an HTTPException with
status 500 and the reason phrase; every other exception propagates raw. -/
def search_image_qdrant (s : Settings) (w : Weights)
    (qsearch : Feature → Int → Except PyError SearchResponse)
    (now : String) (file : UploadFile) : Outcome × List Step :=
  let filename := now ++ file.filename
  let image_path := s.IMAGEDIR ++ filename
  match extract_feature s.DIMENSIONS w file.contents with
  | Except.error e =>
      (match e with
       | PyError.unexpectedResponse r => Outcome.httpError 500 r
       | _ => Outcome.raised e,
       [Step.saveFile image_path, Step.extractCall])
  | Except.ok feature =>
      match qsearch feature 20 with
      | Except.error e =>
          (match e with
           | PyError.unexpectedResponse r => Outcome.httpError 500 r
           | _ => Outcome.raised e,
           [Step.saveFile image_path, Step.extractCall, Step.searchCall 20])
      | Except.ok search_results =>
          (Outcome.ok (search_results.result.map Product.from_point),
           [Step.saveFile image_path, Step.extractCall, Step.searchCall 20,
            Step.mapResults])

/-- The /search-image-triton endpoint, app.py lines 81-115: same pipeline
with the remote extractor, but with no try/except - every exception reaches
the caller raw. -/
def search_image_triton (s : Settings) (w : Weights)
    (qsearch : Feature → Int → Except PyError SearchResponse)
    (now : String) (file : UploadFile) : Outcome × List Step :=
  let filename := now ++ file.filename
  let image_path := s.IMAGEDIR ++ filename
  match triton_extract_feature s.DIMENSIONS w file.contents with
  | Except.error e => (Outcome.raised e, [Step.saveFile image_path, Step.extractCall])
  | Except.ok feature =>
      match qsearch feature 20 with
      | Except.error e =>
          (Outcome.raised e,
           [Step.saveFile image_path, Step.extractCall, Step.searchCall 20])
      | Except.ok search_results =>
          (Outcome.ok (search_results.result.map Product.from_point),
           [Step.saveFile image_path, Step.extractCall, Step.searchCall 20,
            Step.mapResults])

/-- The /search-image-faiss endpoint, app.py lines 118-155: save the upload,
extract with the local extractor, search the local index with top_k = 20 and
return the searcher's output directly; the except clause catches every
exception and wraps it as an HTTPException whose detail is the raw
exception object (line 155). -/
def upload_image (s : Settings) (w : Weights) (entries : List (Nat × Feature))
    (meta : Nat → Option CatalogMeta) (now : String) (file : UploadFile) :
    Outcome × List Step :=
  let filename := now ++ file.filename
  let image_path := s.IMAGEDIR ++ filename
  match extract_feature s.DIMENSIONS w file.contents with
  | Except.error e =>
      (Outcome.httpErrorExc 500 e, [Step.saveFile image_path, Step.extractCall])
  | Except.ok feature =>
      (Outcome.ok (FaissSearch.search entries meta feature 20),
       [Step.saveFile image_path, Step.extractCall, Step.searchCall 20,
        Step.mapResults])

/-- A torch module's mode flag: true while in training mode. -/
structure TorchModel where
  training : Bool
deriving DecidableEq

/-- torchvision instantiates a model in training mode
(fetch_model.py line 7). -/
def efficientnet_b3 : TorchModel := { training := true }

/-- model.eval() switches the module to evaluation (inference) mode. -/
def TorchModel.eval (m : TorchModel) : TorchModel := { m with training := false }

/-- The prepared model of fetch_model.py lines 7-10: instantiate, then
model.eval(). -/
def model : TorchModel := TorchModel.eval efficientnet_b3

/-- Modelled from the spec: the forward pass runs with gradient computation
disabled (inference-only). -/
def grad_enabled : Bool := false

/-- Opaque internal state an adapter could carry between calls. -/
abbrev AdapterState := List Nat

/-- Modelled from the spec: one invocation of the extractor with its state
threaded through - the call accumulates no state and its output is a
function of (image, weights) only. -/
def extract_feature_call (D : Nat) (w : Weights) (img : Image)
    (st : AdapterState) : Except PyError Feature × AdapterState :=
  (extract_feature D w img, st)

/-! Concrete values used by witnesses and counterexamples. -/

/-- Concrete model weights for witness runs. -/
def w0 : Weights := fun _ _ => 0

/-- A small decodable image. -/
def img1 : Image := [1, 2, 3]

/-- A concrete upload with decodable contents. -/
def file1 : UploadFile := { filename := "a.jpg", contents := img1 }

/-- A concrete upload with empty (unreadable) contents. -/
def emptyFile : UploadFile := { filename := "e.jpg", contents := [] }

/-- A qdrant backend behavior that answers every search with an empty
result list. -/
def okBackend : Feature → Int → Except PyError SearchResponse :=
  fun _ _ => Except.ok { result := [] }

/-- A qdrant backend behavior that fails every search with an
UnexpectedResponse. -/
def badBackend : Feature → Int → Except PyError SearchResponse :=
  fun _ _ => Except.error (PyError.unexpectedResponse "service unavailable")

/-- A metadata lookup knowing only identifier 1. -/
def meta0 : Nat → Option CatalogMeta :=
  fun i => if i = 1 then some { name := "shoe" } else none

/-- A search result referencing identifier 7, stale with respect to meta0. -/
def sr0 : List (Nat × ℚ) := [(1, 0), (7, 1)]

/-! Ordering instances for the score comparison used by the query. -/

instance : IsTotal (Nat × ℚ) (fun a b => a.2 ≤ b.2) :=
  ⟨fun a b => le_total a.2 b.2⟩

instance : IsTrans (Nat × ℚ) (fun a b => a.2 ≤ b.2) :=
  ⟨fun _ _ _ hab hbc => le_trans hab hbc⟩

/-! Helper lemmas. -/

/-- Deserialization inverts serialization on every vector. -/
theorem deserialize_serialize (v : Feature) :
    deserialize_vector (serialize_vector v) = v := by
  unfold deserialize_vector serialize_vector
  rw [List.map_map]
  have hfun : ((fun p : Int × Nat => (p.1 : ℚ) / (p.2 : ℚ)) ∘
      fun q : ℚ => (q.num, q.den)) = id := by
    funext q
    simp [Function.comp, Rat.num_div_den]
  rw [hfun, List.map_id]

/-- The qdrant handler's trace always starts with the save and extract steps
and continues with at most one search call (with top_k 20) and the mapping
step. -/
theorem qdrant_trace (s : Settings) (w : Weights)
    (qsearch : Feature → Int → Except PyError SearchResponse)
    (now : String) (file : UploadFile) :
    ∃ rest : List Step,
      (search_image_qdrant s w qsearch now file).2 =
        Step.saveFile (s.IMAGEDIR ++ (now ++ file.filename)) ::
          Step.extractCall :: rest ∧
      (rest = [] ∨ rest = [Step.searchCall 20] ∨
        rest = [Step.searchCall 20, Step.mapResults]) := by
  cases h : extract_feature s.DIMENSIONS w file.contents with
  | error e => exact ⟨[], by simp [search_image_qdrant, h], Or.inl rfl⟩
  | ok f =>
    cases hq : qsearch f 20 with
    | error e =>
      exact ⟨[Step.searchCall 20], by simp [search_image_qdrant, h, hq],
        Or.inr (Or.inl rfl)⟩
    | ok resp =>
      exact ⟨[Step.searchCall 20, Step.mapResults],
        by simp [search_image_qdrant, h, hq], Or.inr (Or.inr rfl)⟩

/-- Same trace shape for the triton handler. -/
theorem triton_trace (s : Settings) (w : Weights)
    (qsearch : Feature → Int → Except PyError SearchResponse)
    (now : String) (file : UploadFile) :
    ∃ rest : List Step,
      (search_image_triton s w qsearch now file).2 =
        Step.saveFile (s.IMAGEDIR ++ (now ++ file.filename)) ::
          Step.extractCall :: rest ∧
      (rest = [] ∨ rest = [Step.searchCall 20] ∨
        rest = [Step.searchCall 20, Step.mapResults]) := by
  cases h : triton_extract_feature s.DIMENSIONS w file.contents with
  | error e => exact ⟨[], by simp [search_image_triton, h], Or.inl rfl⟩
  | ok f =>
    cases hq : qsearch f 20 with
    | error e =>
      exact ⟨[Step.searchCall 20], by simp [search_image_triton, h, hq],
        Or.inr (Or.inl rfl)⟩
    | ok resp =>
      exact ⟨[Step.searchCall 20, Step.mapResults],
        by simp [search_image_triton, h, hq], Or.inr (Or.inr rfl)⟩

/-- Same trace shape for the faiss handler. -/
theorem faiss_trace (s : Settings) (w : Weights) (entries : List (Nat × Feature))
    (meta : Nat → Option CatalogMeta) (now : String) (file : UploadFile) :
    ∃ rest : List Step,
      (upload_image s w entries meta now file).2 =
        Step.saveFile (s.IMAGEDIR ++ (now ++ file.filename)) ::
          Step.extractCall :: rest ∧
      (rest = [] ∨ rest = [Step.searchCall 20] ∨
        rest = [Step.searchCall 20, Step.mapResults]) := by
  cases h : extract_feature s.DIMENSIONS w file.contents with
  | error e => exact ⟨[], by simp [upload_image, h], Or.inl rfl⟩
  | ok f =>
    exact ⟨[Step.searchCall 20, Step.mapResults],
      by simp [upload_image, h], Or.inr (Or.inr rfl)⟩

/-- Claim C1: every Search Result returned by the index query has scores
that are non-decreasing in the metric's direction (distance, best match
first) by position, and its length is min(top_k, index size). -/
theorem C1_search_result_sorted_and_length (entries : List (Nat × Feature))
    (embedding : Feature) (top_k : Nat) :
    List.Pairwise (fun a b : Nat × ℚ => a.2 ≤ b.2)
      (query entries embedding top_k) ∧
    (query entries embedding top_k).length = min top_k entries.length := by
  constructor
  · exact List.Pairwise.sublist (List.take_sublist _ _)
      (List.sorted_insertionSort _ _)
  · simp [query, List.length_take, List.length_insertionSort]

/-- Claim C7: querying an empty index returns an empty Search Result (no
error is possible, the query is a total function), and an index holding
fewer than top_k entries returns all of its entries, ranked. -/
theorem C7_empty_and_underfull_query (entries : List (Nat × Feature))
    (embedding : Feature) (top_k : Nat) (htop : 0 < top_k)
    (hlt : entries.length < top_k) :
    query [] embedding top_k = [] ∧
    List.Perm (query entries embedding top_k)
      (entries.map fun e => (e.1, squared_distance embedding e.2)) ∧
    List.Pairwise (fun a b : Nat × ℚ => a.2 ≤ b.2)
      (query entries embedding top_k) := by
  refine ⟨by simp [query], ?_, ?_⟩
  · have hlen : (List.insertionSort (fun a b : Nat × ℚ => a.2 ≤ b.2)
        (entries.map fun e => (e.1, squared_distance embedding e.2))).length ≤
          top_k := by
      rw [List.length_insertionSort, List.length_map]
      exact le_of_lt hlt
    rw [query, List.take_of_length_le hlen]
    exact List.perm_insertionSort _ _
  · exact List.Pairwise.sublist (List.take_sublist _ _)
      (List.sorted_insertionSort _ _)

/-- Witness for C7 at a concrete two-entry index and top_k 5. -/
theorem C7_empty_and_underfull_query_witness :
    0 < 5 ∧ [((1 : Nat), [(2 : ℚ)]), (2, [0])].length < 5 ∧
    (query [] [(1 : ℚ)] 5 = [] ∧
      List.Perm (query [((1 : Nat), [(2 : ℚ)]), (2, [0])] [(1 : ℚ)] 5)
        ([((1 : Nat), [(2 : ℚ)]), (2, [0])].map fun e =>
          (e.1, squared_distance [(1 : ℚ)] e.2)) ∧
      List.Pairwise (fun a b : Nat × ℚ => a.2 ≤ b.2)
        (query [((1 : Nat), [(2 : ℚ)]), (2, [0])] [(1 : ℚ)] 5)) :=
  ⟨by decide, by decide,
    C7_empty_and_underfull_query _ _ _ (by decide) (by decide)⟩

/-- Claim C2: when the image input cannot be decoded (empty byte input, so
the extractor fails with InputError), every endpoint fails before invoking
any index backend: the qdrant and triton endpoints raise the InputError, the
faiss endpoint wraps the same InputError in its HTTP 500 response, and none
of the three traces contains a backend search call. -/
theorem C2_input_error_fails_before_search (s : Settings) (w : Weights)
    (qsearch : Feature → Int → Except PyError SearchResponse)
    (entries : List (Nat × Feature)) (meta : Nat → Option CatalogMeta)
    (now : String) (file : UploadFile) (h : file.contents = []) :
    (search_image_qdrant s w qsearch now file).1 =
      Outcome.raised PyError.inputError ∧
    searchCalls (search_image_qdrant s w qsearch now file).2 = [] ∧
    (search_image_triton s w qsearch now file).1 =
      Outcome.raised PyError.inputError ∧
    searchCalls (search_image_triton s w qsearch now file).2 = [] ∧
    (upload_image s w entries meta now file).1 =
      Outcome.httpErrorExc 500 PyError.inputError ∧
    searchCalls (upload_image s w entries meta now file).2 = [] := by
  have he : extract_feature s.DIMENSIONS w file.contents =
      Except.error PyError.inputError := by
    simp [extract_feature, decode_image, h]
  have het : triton_extract_feature s.DIMENSIONS w file.contents =
      Except.error PyError.inputError := by
    simp [triton_extract_feature, decode_image, h]
  refine ⟨?_, ?_, ?_, ?_, ?_, ?_⟩ <;>
    simp [search_image_qdrant, search_image_triton, upload_image, he, het,
      searchCalls]

/-- Witness for C2 at the concrete empty upload. -/
theorem C2_input_error_fails_before_search_witness :
    emptyFile.contents = [] ∧
    ((search_image_qdrant settings w0 okBackend "t-" emptyFile).1 =
        Outcome.raised PyError.inputError ∧
      searchCalls (search_image_qdrant settings w0 okBackend "t-" emptyFile).2 = [] ∧
      (search_image_triton settings w0 okBackend "t-" emptyFile).1 =
        Outcome.raised PyError.inputError ∧
      searchCalls (search_image_triton settings w0 okBackend "t-" emptyFile).2 = [] ∧
      (upload_image settings w0 [] meta0 "t-" emptyFile).1 =
        Outcome.httpErrorExc 500 PyError.inputError ∧
      searchCalls (upload_image settings w0 [] meta0 "t-" emptyFile).2 = []) :=
  ⟨rfl, C2_input_error_fails_before_search settings w0 okBackend [] meta0
    "t-" emptyFile rfl⟩

/-- Counterexample to Claim C3 as stated: on the triton endpoint a remote
backend failure (here the backend's UnexpectedResponse) reaches the caller
as the raw transport-specific exception, with no translation into a domain
error. -/
theorem C3_counterexample_raw_error_reaches_caller :
    (search_image_triton settings w0 badBackend "t-" file1).1 =
      Outcome.raised (PyError.unexpectedResponse "service unavailable") := rfl

/-- Claim C3 as amended: only the qdrant endpoint translates a backend
failure, and only for UnexpectedResponse (into an HTTP 500 with the reason
phrase); a connection failure on the qdrant endpoint and every failure on
the triton endpoint reach the caller as raw exceptions. Every successful
outcome is the complete mapped result list, never a partial one. -/
theorem C3_amended_incomplete_translation (s : Settings) (w : Weights)
    (qsearch : Feature → Int → Except PyError SearchResponse)
    (now : String) (file : UploadFile) (f ft : Feature) (r : String)
    (e : PyError) (resp : SearchResponse)
    (hf : extract_feature s.DIMENSIONS w file.contents = Except.ok f)
    (ht : triton_extract_feature s.DIMENSIONS w file.contents = Except.ok ft) :
    (qsearch f 20 = Except.error (PyError.unexpectedResponse r) →
      (search_image_qdrant s w qsearch now file).1 = Outcome.httpError 500 r) ∧
    (qsearch f 20 = Except.error PyError.connectionError →
      (search_image_qdrant s w qsearch now file).1 =
        Outcome.raised PyError.connectionError) ∧
    (qsearch ft 20 = Except.error e →
      (search_image_triton s w qsearch now file).1 = Outcome.raised e) ∧
    (qsearch f 20 = Except.ok resp →
      (search_image_qdrant s w qsearch now file).1 =
        Outcome.ok (resp.result.map Product.from_point)) := by
  refine ⟨?_, ?_, ?_, ?_⟩ <;> intro hq
  · simp [search_image_qdrant, hf, hq]
  · simp [search_image_qdrant, hf, hq]
  · simp [search_image_triton, ht, hq]
  · simp [search_image_qdrant, hf, hq]

/-- Witness for the amended C3 at concrete inputs: the qdrant endpoint
translates the UnexpectedResponse while the triton endpoint propagates it
raw. -/
theorem C3_amended_incomplete_translation_witness :
    (search_image_qdrant settings w0 badBackend "t-" file1).1 =
      Outcome.httpError 500 "service unavailable" ∧
    (search_image_triton settings w0 badBackend "t-" file1).1 =
      Outcome.raised (PyError.unexpectedResponse "service unavailable") :=
  ⟨(C3_amended_incomplete_translation settings w0 badBackend "t-" file1
      (forward settings.DIMENSIONS w0 img1)
      (deserialize_vector (serialize_vector (forward settings.DIMENSIONS w0 img1)))
      "service unavailable" PyError.connectionError { result := [] }
      rfl rfl).1 rfl,
   (C3_amended_incomplete_translation settings w0 badBackend "t-" file1
      (forward settings.DIMENSIONS w0 img1)
      (deserialize_vector (serialize_vector (forward settings.DIMENSIONS w0 img1)))
      "service unavailable"
      (PyError.unexpectedResponse "service unavailable") { result := [] }
      rfl rfl).2.2.1 rfl⟩

/-- Counterexample to Claim C4 as stated: a concrete request runs to
completion with the extractor invoked and the index backend invoked with the
program's only top_k value (the constant 20), while the trace contains no
top_k validation step at all; the caller cannot supply a top_k, so no
request with top_k below 1 can even be formed, and the configured TOP_K is
3, not the value searched with. -/
theorem C4_counterexample_no_validation :
    ((search_image_qdrant settings w0 okBackend "t-" file1).2.count
        Step.validateTopK = 0) ∧
    ((search_image_qdrant settings w0 okBackend "t-" file1).2.count
        Step.extractCall = 1) ∧
    ((search_image_qdrant settings w0 okBackend "t-" file1).2.count
        (Step.searchCall 20) = 1) ∧
    searchCalls (search_image_qdrant settings w0 okBackend "t-" file1).2 =
      [20] ∧
    settings.TOP_K = 3 := by
  refine ⟨?_, ?_, ?_, ?_, rfl⟩ <;> rfl

/-- Claim C4 as amended: the orchestrator performs no top_k validation
whatsoever - no endpoint ever emits a validation step - and instead every
index-backend invocation of every endpoint uses the constant 20, which is
positive, so a backend is never invoked with a non-positive top_k. -/
theorem C4_amended_no_validation_constant_topk (s : Settings) (w : Weights)
    (qsearch : Feature → Int → Except PyError SearchResponse)
    (entries : List (Nat × Feature)) (meta : Nat → Option CatalogMeta)
    (now : String) (file : UploadFile) :
    ((search_image_qdrant s w qsearch now file).2.count Step.validateTopK = 0) ∧
    ((search_image_triton s w qsearch now file).2.count Step.validateTopK = 0) ∧
    ((upload_image s w entries meta now file).2.count Step.validateTopK = 0) ∧
    ((searchCalls (search_image_qdrant s w qsearch now file).2).all
      (fun tk => tk == 20) = true) ∧
    ((searchCalls (search_image_triton s w qsearch now file).2).all
      (fun tk => tk == 20) = true) ∧
    ((searchCalls (upload_image s w entries meta now file).2).all
      (fun tk => tk == 20) = true) ∧
    (0 : Int) < 20 := by
  obtain ⟨r1, he1, hr1⟩ := qdrant_trace s w qsearch now file
  obtain ⟨r2, he2, hr2⟩ := triton_trace s w qsearch now file
  obtain ⟨r3, he3, hr3⟩ := faiss_trace s w entries meta now file
  refine ⟨?_, ?_, ?_, ?_, ?_, ?_, by decide⟩ <;>
    first
    | (rw [he1]; rcases hr1 with h | h | h <;> subst h <;>
        simp [searchCalls, List.count_cons])
    | (rw [he2]; rcases hr2 with h | h | h <;> subst h <;>
        simp [searchCalls, List.count_cons])
    | (rw [he3]; rcases hr3 with h | h | h <;> subst h <;>
        simp [searchCalls, List.count_cons])

/-- Claim C5: every endpoint returns exactly the Result Mapper's image of
the backend's result sequence, in the backend's order - the qdrant and
triton endpoints return the point list mapped element-wise through
Product.from_point (so the output length equals the backend's result
length: nothing inserted, dropped or re-sorted), and the faiss endpoint
returns the searcher's mapped output of the query hits. -/
theorem C5_result_mapper_applied_in_order (s : Settings) (w : Weights)
    (qsearch : Feature → Int → Except PyError SearchResponse)
    (now : String) (file : UploadFile) (entries : List (Nat × Feature))
    (meta : Nat → Option CatalogMeta) (f ft : Feature)
    (resp respt : SearchResponse)
    (hf : extract_feature s.DIMENSIONS w file.contents = Except.ok f)
    (hq : qsearch f 20 = Except.ok resp)
    (ht : triton_extract_feature s.DIMENSIONS w file.contents = Except.ok ft)
    (hqt : qsearch ft 20 = Except.ok respt) :
    (search_image_qdrant s w qsearch now file).1 =
      Outcome.ok (resp.result.map Product.from_point) ∧
    (resp.result.map Product.from_point).length = resp.result.length ∧
    (search_image_triton s w qsearch now file).1 =
      Outcome.ok (respt.result.map Product.from_point) ∧
    (upload_image s w entries meta now file).1 =
      Outcome.ok (resultMapper meta (query entries f 20)) := by
  refine ⟨?_, by simp, ?_, ?_⟩
  · simp [search_image_qdrant, hf, hq]
  · simp [search_image_triton, ht, hqt]
  · simp [upload_image, hf, FaissSearch.search]

/-- Witness for C5 at the concrete decodable upload and the empty-result
backend. -/
theorem C5_result_mapper_applied_in_order_witness :
    (search_image_qdrant settings w0 okBackend "t-" file1).1 =
      Outcome.ok ((SearchResponse.result { result := [] }).map Product.from_point) ∧
    ((SearchResponse.result { result := [] }).map Product.from_point).length =
      (SearchResponse.result { result := [] }).length ∧
    (search_image_triton settings w0 okBackend "t-" file1).1 =
      Outcome.ok ((SearchResponse.result { result := [] }).map Product.from_point) ∧
    (upload_image settings w0 [] meta0 "t-" file1).1 =
      Outcome.ok (resultMapper meta0
        (query [] (forward settings.DIMENSIONS w0 img1) 20)) :=
  C5_result_mapper_applied_in_order settings w0 okBackend "t-" file1 [] meta0
    (forward settings.DIMENSIONS w0 img1)
    (deserialize_vector (serialize_vector (forward settings.DIMENSIONS w0 img1)))
    { result := [] } { result := [] } rfl rfl rfl rfl

/-- The Result Mapper is exactly: keep, in order, the hits whose identifier
the metadata lookup knows, and build a Product from each. -/
theorem resultMapper_eq_filter_map (meta : Nat → Option CatalogMeta)
    (sr : List (Nat × ℚ)) :
    resultMapper meta sr =
      (sr.filter fun p => (meta p.1).isSome).map
        (fun p => { id := p.1, name := ((meta p.1).getD default).name,
                    score := p.2 }) := by
  induction sr with
  | nil => rfl
  | cons hd tl ih =>
    cases hm : meta hd.1 with
    | none =>
      simpa [resultMapper, List.filterMap_cons, List.filter_cons, hm] using ih
    | some m =>
      simpa [resultMapper, List.filterMap_cons, List.filter_cons, hm] using ih

/-- Claim C6: an identifier absent from the metadata lookup is dropped by
the Result Mapper (every mapped product's identifier is known to the
lookup), the entries whose identifiers are present are kept in order, and
the faiss request still succeeds for any metadata lookup - the mapper is
total, so a stale identifier never turns the request into an error. -/
theorem C6_mapper_tolerates_stale_ids (meta : Nat → Option CatalogMeta)
    (sr : List (Nat × ℚ)) (s : Settings) (w : Weights)
    (entries : List (Nat × Feature)) (now : String) (file : UploadFile)
    (f : Feature)
    (hf : extract_feature s.DIMENSIONS w file.contents = Except.ok f) :
    (∀ pr ∈ resultMapper meta sr, (meta pr.id).isSome = true) ∧
    resultMapper meta sr =
      (sr.filter fun p => (meta p.1).isSome).map
        (fun p => { id := p.1, name := ((meta p.1).getD default).name,
                    score := p.2 }) ∧
    (upload_image s w entries meta now file).1 =
      Outcome.ok (FaissSearch.search entries meta f 20) := by
  refine ⟨?_, resultMapper_eq_filter_map meta sr, ?_⟩
  · intro pr hpr
    simp only [resultMapper, List.mem_filterMap] at hpr
    obtain ⟨a, _, hfa⟩ := hpr
    rw [Option.map_eq_some'] at hfa
    obtain ⟨m, hm, hpr2⟩ := hfa
    subst hpr2
    simp [hm]
  · simp [upload_image, hf]

/-- Witness for C6 at a concrete stale search result (identifier 7 is
unknown to meta0). -/
theorem C6_mapper_tolerates_stale_ids_witness :
    (∀ pr ∈ resultMapper meta0 sr0, (meta0 pr.id).isSome = true) ∧
    resultMapper meta0 sr0 =
      (sr0.filter fun p => (meta0 p.1).isSome).map
        (fun p => { id := p.1, name := ((meta0 p.1).getD default).name,
                    score := p.2 }) ∧
    (upload_image settings w0 [] meta0 "t-" file1).1 =
      Outcome.ok (FaissSearch.search [] meta0
        (forward settings.DIMENSIONS w0 img1) 20) :=
  C6_mapper_tolerates_stale_ids meta0 sr0 settings w0 [] "t-" file1
    (forward settings.DIMENSIONS w0 img1) rfl

/-- Claim C8: on every decodable image, both extractor variants succeed with
a vector of length exactly the configured dimension (1000 in this
deployment), and the remote variant's deserialized output equals the local
variant's output - same format and dimensionality. -/
theorem C8_extract_dimension (w : Weights) (img : Image) (d : Image)
    (h : decode_image img = some d) :
    ∃ v vt : Feature,
      extract_feature settings.DIMENSIONS w img = Except.ok v ∧
      triton_extract_feature settings.DIMENSIONS w img = Except.ok vt ∧
      v.length = settings.DIMENSIONS ∧
      vt.length = settings.DIMENSIONS ∧
      vt = v ∧ settings.DIMENSIONS = 1000 := by
  refine ⟨forward settings.DIMENSIONS w d,
    deserialize_vector (serialize_vector (forward settings.DIMENSIONS w d)),
    ?_, ?_, ?_, ?_, deserialize_serialize _, rfl⟩
  · simp [extract_feature, h]
  · simp [triton_extract_feature, h]
  · simp [forward]
  · simp [deserialize_vector, serialize_vector, forward]

/-- Witness for C8 at the concrete decodable image. -/
theorem C8_extract_dimension_witness :
    decode_image img1 = some img1 ∧
    (∃ v vt : Feature,
      extract_feature settings.DIMENSIONS w0 img1 = Except.ok v ∧
      triton_extract_feature settings.DIMENSIONS w0 img1 = Except.ok vt ∧
      v.length = settings.DIMENSIONS ∧
      vt.length = settings.DIMENSIONS ∧
      vt = v ∧ settings.DIMENSIONS = 1000) :=
  ⟨rfl, C8_extract_dimension w0 img1 img1 rfl⟩

/-- Claim C9: the embedding step is deterministic and stateless - the
extractor call's output is the same whatever adapter state it starts from
(so two invocations on the same image and weights agree exactly), the call
returns its state unchanged, the prepared model of fetch_model.py is in
evaluation mode, and the modelled forward pass runs with gradient
computation disabled. -/
theorem C9_extractor_deterministic_stateless (D : Nat) (w : Weights)
    (img : Image) (s1 s2 : AdapterState) :
    (extract_feature_call D w img s1).1 = (extract_feature_call D w img s2).1 ∧
    (extract_feature_call D w img s1).2 = s1 ∧
    model.training = false ∧
    grad_enabled = false :=
  ⟨rfl, rfl, rfl, rfl⟩

/-- Claim C10: every index-backend invocation of every endpoint uses the
constant top_k 20, the request carries no top_k for the caller to choose,
and the configured TOP_K setting (value 3) is never read by any endpoint -
changing it changes no endpoint's outcome or trace. -/
theorem C10_topk_constant_twenty (s : Settings) (w : Weights)
    (qsearch : Feature → Int → Except PyError SearchResponse)
    (entries : List (Nat × Feature)) (meta : Nat → Option CatalogMeta)
    (now : String) (file : UploadFile) (t t' : Int) :
    ((searchCalls (search_image_qdrant s w qsearch now file).2).all
      (fun tk => tk == 20) = true) ∧
    ((searchCalls (search_image_triton s w qsearch now file).2).all
      (fun tk => tk == 20) = true) ∧
    ((searchCalls (upload_image s w entries meta now file).2).all
      (fun tk => tk == 20) = true) ∧
    settings.TOP_K = 3 ∧
    search_image_qdrant { s with TOP_K := t } w qsearch now file =
      search_image_qdrant { s with TOP_K := t' } w qsearch now file ∧
    search_image_triton { s with TOP_K := t } w qsearch now file =
      search_image_triton { s with TOP_K := t' } w qsearch now file ∧
    upload_image { s with TOP_K := t } w entries meta now file =
      upload_image { s with TOP_K := t' } w entries meta now file := by
  obtain ⟨r1, he1, hr1⟩ := qdrant_trace s w qsearch now file
  obtain ⟨r2, he2, hr2⟩ := triton_trace s w qsearch now file
  obtain ⟨r3, he3, hr3⟩ := faiss_trace s w entries meta now file
  refine ⟨?_, ?_, ?_, rfl, rfl, rfl, rfl⟩
  · rw [he1]; rcases hr1 with h | h | h <;> subst h <;> simp [searchCalls]
  · rw [he2]; rcases hr2 with h | h | h <;> subst h <;> simp [searchCalls]
  · rw [he3]; rcases hr3 with h | h | h <;> subst h <;> simp [searchCalls]

end ImageSearch
